import Mathlib

/-!
Shallow embedding of the to-do MCP server in `src/main.py` (repository
Haniehz1/todo_app), together with proofs settling the frozen claims about
its specification.

The embedding follows the source file closely:

* `Task` / `TaskList` mirror the pydantic models (lines 48-56).
* `readStore` mirrors `_read_store` (lines 61-64) over an explicit `Json`
  value standing for the parsed content of the data file; `none` stands for
  an unreadable file or content `json.load` rejects.
* `markFirst`, `pyStrip` and `handleCallTool` mirror the tool dispatcher
  `_handle_call_tool` (lines 253-374).
* `renderWidgetHtml` mirrors `_render_widget_html` (lines 123-135),
  including the exact `str.format` / `str.replace` behaviour of Python on
  the template `TODO_WIDGET_HTML` (lines 96-121).

Nondeterministic inputs the Python runtime supplies (the `uuid.uuid4()`
fresh id and the `datetime.utcnow()` clock reading) are gathered in an
`Env` record and passed explicitly to the operations that consume them.
Persistence is modelled by the `store` component of `StepOutput` (the
task list held by the data file after the call) together with a `wrote`
flag recording whether `_write_store` was invoked at all.
-/

namespace TodoApp

/-- Python's whitespace class for `str.strip()` / `str.isspace()`:
ASCII space, `\t`, `\n`, `\v`, `\f`, `\r`, the C1 separators
`\x1c`-`\x1f`, and the Unicode space characters Python treats as
whitespace. -/
def pyIsSpace (c : Char) : Bool :=
  let n := c.toNat
  n = 0x20 || (0x9 ≤ n && n ≤ 0xd) || (0x1c ≤ n && n ≤ 0x1f) ||
  n = 0x85 || n = 0xa0 || n = 0x1680 || (0x2000 ≤ n && n ≤ 0x200a) ||
  n = 0x2028 || n = 0x2029 || n = 0x202f || n = 0x205f || n = 0x3000

/-- Python's `str.strip()`: removes leading and trailing whitespace. -/
def pyStrip (s : String) : String :=
  ⟨((s.data.dropWhile pyIsSpace).reverse.dropWhile pyIsSpace).reverse⟩

/-- The `Task` pydantic model (src/main.py lines 48-53). -/
structure Task where
  id : String
  text : String
  done : Bool := false
  created_at : String
  due_date : Option String := none
deriving DecidableEq, Repr

/-- The `TaskList` pydantic model (src/main.py lines 55-56). -/
structure TaskList where
  tasks : List Task
deriving DecidableEq, Repr

/-- Parsed JSON documents, as produced by Python's `json.load`. Objects
are the parsed dict in key order; `num` covers the numeric case (its
exact carrier is irrelevant to the store schema, which has no numeric
field). -/
inductive Json where
  | null : Json
  | bool : Bool → Json
  | num : Int → Json
  | str : String → Json
  | arr : List Json → Json
  | obj : List (String × Json) → Json

/-- Dict lookup (`raw.get(key)` on a parsed JSON object). -/
def lookupField (key : String) : List (String × Json) → Option Json
  | [] => none
  | (k, v) :: rest => if k = key then some v else lookupField key rest

/-- Python iteration (`for t in x`) over a JSON value: lists yield their
elements, dicts their keys, strings their one-character substrings;
anything else raises `TypeError`. -/
def pyIter : Json → Except String (List Json)
  | .arr xs => .ok xs
  | .obj fs => .ok (fs.map fun p => Json.str p.1)
  | .str s => .ok (s.data.map fun c => Json.str (String.singleton c))
  | _ => .error "TypeError: object is not iterable"

/-- `Task(**t)`: pydantic validation of one record. The argument must be
a mapping; `id`, `text`, `created_at` are required strings; `done`
defaults to false; `due_date` defaults to null and may be null or a
string; extra keys are ignored (pydantic default). -/
def taskOfJson : Json → Except String Task
  | .obj fs =>
    match lookupField "id" fs with
    | some (.str i) =>
      match lookupField "text" fs with
      | some (.str tx) =>
        match lookupField "created_at" fs with
        | some (.str ca) =>
          match lookupField "done" fs with
          | none => matchDue i tx false ca (lookupField "due_date" fs)
          | some (.bool b) => matchDue i tx b ca (lookupField "due_date" fs)
          | some _ => .error "ValidationError: done must be a boolean"
        | _ => .error "ValidationError: missing or invalid created_at"
      | _ => .error "ValidationError: missing or invalid text"
    | _ => .error "ValidationError: missing or invalid id"
  | _ => .error "TypeError: argument must be a mapping"
where
  matchDue (i tx : String) (b : Bool) (ca : String) :
      Option Json → Except String Task
    | none => .ok { id := i, text := tx, done := b, created_at := ca }
    | some .null => .ok { id := i, text := tx, done := b, created_at := ca }
    | some (.str d) =>
      .ok { id := i, text := tx, done := b, created_at := ca, due_date := some d }
    | some _ => .error "ValidationError: due_date must be a string or null"

/-- The list comprehension `[Task(**t) for t in ...]`: validates each
record, propagating the first failure. -/
def tasksOfJsonList : List Json → Except String (List Task)
  | [] => .ok []
  | j :: js => do
    let t ← taskOfJson j
    let ts ← tasksOfJsonList js
    pure (t :: ts)

/-- `_read_store` (src/main.py lines 61-64). The argument is the parsed
content of the data file; `none` stands for an unreadable file or
content rejected by `json.load`. `raw.get("tasks", [])` requires the
top level to be a dict and defaults a missing `tasks` key to the empty
list. -/
def readStore : Option Json → Except String TaskList
  | none => .error "StorageError: file unreadable or not valid JSON"
  | some j =>
    match j with
    | .obj fs => do
      let items ← pyIter ((lookupField "tasks" fs).getD (.arr []))
      let ts ← tasksOfJsonList items
      pure ⟨ts⟩
    | _ => .error "AttributeError: object has no attribute get"

/-- The document written on first run (src/main.py lines 41-43):
`json.dump({"tasks": []}, f)`. -/
def initStoreJson : Json := .obj [("tasks", .arr [])]

/-- The nondeterministic inputs the Python runtime supplies to one tool
call: the `uuid.uuid4()` draw from the random source and the
`datetime.utcnow()` clock reading (src/main.py lines 296-299). -/
structure Env where
  freshId : String
  now : String
deriving DecidableEq, Repr

/-- One incoming `CallToolRequest`: the tool name together with the
argument bag. `Option` mirrors `args.get(...)`: `none` is a missing
argument. -/
inductive Request where
  | getTasks : Request
  | addTask (text : Option String) (due_date : Option String) : Request
  | markDone (task_id : Option String) (done : Option Bool) : Request
  | unknown (name : String) : Request

/-- The `CallToolResult` the dispatcher builds: the text content block,
the optional `structuredContent` payload, the `isError` flag, and the
widget HTML embedded in `_meta` by `_meta_with_widget` (error responses
carry no `_meta`). -/
structure CallToolResult where
  text : String
  structuredContent : Option TaskList
  isError : Bool
  metaWidgetHtml : Option String
deriving DecidableEq, Repr

/-- The outcome of one dispatched call: the response, the task list the
data file holds afterwards, and whether `_write_store` was invoked. -/
structure StepOutput where
  result : CallToolResult
  store : TaskList
  wrote : Bool
deriving DecidableEq, Repr

/-- Lower-case hex digit, as used by `json.dumps` unicode escapes. -/
def hexDigit (n : Nat) : Char :=
  if n < 10 then Char.ofNat (48 + n) else Char.ofNat (87 + n)

/-- A `\uXXXX` escape for one code unit. -/
def uEscape (n : Nat) : String :=
  "\\u" ++ ⟨[hexDigit (n / 4096 % 16), hexDigit (n / 256 % 16),
             hexDigit (n / 16 % 16), hexDigit (n % 16)]⟩

/-- Escaping of one character by `json.dumps` with its default
`ensure_ascii=True`: the short escapes for quote, backslash and the
common control characters, the characters from space to tilde verbatim,
and `\uXXXX` (with surrogate pairs above the BMP) for everything else. -/
def jsonEscapeChar (c : Char) : String :=
  let n := c.toNat
  if c = '"' then "\\\""
  else if c = '\\' then "\\\\"
  else if c = '\n' then "\\n"
  else if c = '\t' then "\\t"
  else if c = '\r' then "\\r"
  else if n = 0x8 then "\\b"
  else if n = 0xc then "\\f"
  else if 0x20 ≤ n && n ≤ 0x7e then String.singleton c
  else if n < 0x10000 then uEscape n
  else uEscape (0xd800 + (n - 0x10000) / 0x400) ++
       uEscape (0xdc00 + (n - 0x10000) % 0x400)

/-- A JSON string literal as `json.dumps` produces it. -/
def dumpsStr (s : String) : String :=
  "\"" ++ String.join (s.data.map jsonEscapeChar) ++ "\""

/-- `json.dumps(t.model_dump())` for one task: keys in pydantic field
declaration order, default separators. -/
def dumpsTask (t : Task) : String :=
  "\x7b\"id\": " ++ dumpsStr t.id ++
  ", \"text\": " ++ dumpsStr t.text ++
  ", \"done\": " ++ (if t.done then "true" else "false") ++
  ", \"created_at\": " ++ dumpsStr t.created_at ++
  ", \"due_date\": " ++
    (match t.due_date with
     | none => "null"
     | some d => dumpsStr d) ++ "\x7d"

/-- `json.dumps(tasks_data)` for the dict
`{"tasks": [t.model_dump() for t in tasks.tasks]}` built at each call
site (e.g. src/main.py line 268). -/
def dumpsTasksData (l : TaskList) : String :=
  "\x7b\"tasks\": [" ++ String.intercalate ", " (l.tasks.map dumpsTask) ++ "]\x7d"

/-- Core scan of Python's `str.replace`: left to right, replacing each
non-overlapping occurrence of `p :: ps` by `rep`. The fuel argument only
drives structural recursion; each step consumes at least one character,
so any fuel at least the list length computes the replacement. -/
def replaceAux (p : Char) (ps rep : List Char) : Nat → List Char → List Char
  | 0, l => l
  | _ + 1, [] => []
  | fuel + 1, c :: cs =>
    if (p :: ps).isPrefixOf (c :: cs) then
      rep ++ replaceAux p ps rep fuel (cs.drop ps.length)
    else
      c :: replaceAux p ps rep fuel cs

/-- Python's `s.replace(pat, rep)` for a non-empty pattern (the source
never calls `replace` with an empty pattern). -/
def strReplace (s pat rep : String) : String :=
  match pat.data with
  | [] => s
  | p :: ps => ⟨replaceAux p ps rep.data s.data.length s.data⟩

/-- Whether `pat` occurs as a contiguous run inside a character list. -/
def containsSeq (pat : List Char) : List Char → Bool
  | [] => pat.isEmpty
  | c :: cs => pat.isPrefixOf (c :: cs) || containsSeq pat cs

/-- Whether `pat` occurs as a substring of `s`. -/
def strContains (s pat : String) : Bool :=
  containsSeq pat.data s.data

/-- `WIDGET_ASSET_ROUTE` (src/main.py line 83). -/
def widgetAssetRoute : String := "/widget-assets"

/-- Python's `s.rstrip("/")`. -/
def pyRstripSlashes (s : String) : String :=
  ⟨(s.data.reverse.dropWhile (· = '/')).reverse⟩

/-- `TODO_WIDGET_HTML.format(CSS_PATH=cssPath, JS_PATH=jsPath,
WIDGET_VERSION=version)` (src/main.py lines 96-121 and 131-135):
Python's `str.format` substitutes the three named fields and collapses
every doubled brace to a single literal brace — in particular the
placeholder `\x7b\x7bTASKS_JSON\x7d\x7d` of the template comes out as
`\x7bTASKS_JSON\x7d`. -/
def formattedWidgetTemplate (cssPath jsPath version : String) : String :=
  "\n<!DOCTYPE html>\n<html lang=\"en\">\n<head>\n    <meta charset=\"UTF-8\">\n    <meta name=\"viewport\" content=\"width=device-width, initial-scale=1.0\">\n    <link rel=\"stylesheet\" href=\"" ++
  cssPath ++
  "\">\n</head>\n<body>\n    <div id=\"todo-root\" data-widget-version=\"" ++
  version ++
  "\"></div>\n    <script id=\"todo-data\" type=\"application/json\">\x7bTASKS_JSON\x7d</script>\n    <script type=\"module\">\n        import \x7b renderTodoWidget \x7d from \"" ++
  jsPath ++
  "\";\n        const dataEl = document.getElementById(\"todo-data\");\n        let payload = \x7b tasks: [] \x7d;\n        try \x7b\n            payload = JSON.parse(dataEl.textContent);\n        \x7d catch (error) \x7b\n            console.error(\"todo-widget: failed to parse JSON\", error);\n        \x7d\n        const root = document.getElementById(\"todo-root\");\n        renderTodoWidget(\x7b root, tasks: payload.tasks ?? [], postMessageTarget: window.parent \x7d);\n    </script>\n</body>\n</html>\n"

/-- `_render_widget_html` (src/main.py lines 123-135): builds the two
versioned asset paths, JSON-encodes the task data with `</` escaped to
`<\/`, formats the template, and then replaces occurrences of
`\x7b\x7bTASKS_JSON\x7d\x7d` in the formatted text by the escaped JSON.
The function reads neither the random source nor the clock, which the
unused `Env` argument makes explicit. -/
def renderWidgetHtml (env : Env) (version : String) (tasksData : TaskList) :
    String :=
  let assetsBase := pyRstripSlashes widgetAssetRoute
  let cssPath := assetsBase ++ "/todo.css?v=" ++ version
  let jsPath := assetsBase ++ "/todo.js?v=" ++ version
  let tasksJson := strReplace (dumpsTasksData tasksData) "</" "<\\/"
  strReplace (formattedWidgetTemplate cssPath jsPath version)
    "\x7b\x7bTASKS_JSON\x7d\x7d" tasksJson

/-- The comparison `task.id == task_id` (src/main.py line 329): with a
missing `task_id` argument, `task_id` is `None` and the comparison with
a string id is always false. -/
def matchesId (argId : Option String) (t : Task) : Bool :=
  match argId with
  | none => false
  | some s => t.id == s

/-- The `for task in tasks.tasks: ... break` loop of `mark_done`
(src/main.py lines 328-332): set `done` on the first task whose id
matches and stop; the second component is the `updated` flag. -/
def markFirst (argId : Option String) (done : Bool) :
    List Task → List Task × Bool
  | [] => ([], false)
  | t :: ts =>
    if matchesId argId t then ({ t with done := done } :: ts, true)
    else
      let r := markFirst argId done ts
      (t :: r.1, r.2)

/-- Index of the first task the `mark_done` loop would match, if any. -/
def firstMatchIdx (argId : Option String) : List Task → Option Nat
  | [] => none
  | t :: ts =>
    if matchesId argId t then some 0
    else (firstMatchIdx argId ts).map (· + 1)

/-- Python's `str(x)` on an optional string, as the f-string of the
not-found message applies it (`None` prints as `None`). -/
def pyStrOfOpt : Option String → String
  | none => "None"
  | some s => s

/-- `_handle_call_tool` (src/main.py lines 253-374), acting on a store
that loaded successfully. `store` is the task list `_read_store`
returns at the start of the call; the output's `store` is what the data
file holds afterwards (unchanged unless `_write_store` ran). -/
def handleCallTool (env : Env) (version : String) (store : TaskList) :
    Request → StepOutput
  | .getTasks =>
    { result :=
        { text := "Here are your tasks!"
          structuredContent := some store
          isError := false
          metaWidgetHtml := some (renderWidgetHtml env version store) }
      store := store
      wrote := false }
  | .addTask argText argDue =>
    let text := pyStrip (argText.getD "")
    if text = "" then
      { result :=
          { text := "Error: Task text cannot be empty"
            structuredContent := none
            isError := true
            metaWidgetHtml := none }
        store := store
        wrote := false }
    else
      let newTask : Task :=
        { id := env.freshId
          text := text
          done := false
          created_at := env.now ++ "Z"
          due_date := argDue }
      let store' : TaskList := ⟨store.tasks ++ [newTask]⟩
      { result :=
          { text := "✓ Added task: " ++ newTask.text
            structuredContent := some store'
            isError := false
            metaWidgetHtml := some (renderWidgetHtml env version store') }
        store := store'
        wrote := true }
  | .markDone argId argDone =>
    let done := argDone.getD true
    let r := markFirst argId done store.tasks
    if r.2 then
      let store' : TaskList := ⟨r.1⟩
      { result :=
          { text := if done then "✓ Task completed!" else "✓ Task reopened!"
            structuredContent := some store'
            isError := false
            metaWidgetHtml := some (renderWidgetHtml env version store') }
        store := store'
        wrote := true }
    else
      { result :=
          { text := "Error: Task with ID " ++ pyStrOfOpt argId ++ " not found"
            structuredContent := none
            isError := true
            metaWidgetHtml := none }
        store := store
        wrote := false }
  | .unknown name =>
    { result :=
        { text := "Unknown tool: " ++ name
          structuredContent := none
          isError := true
          metaWidgetHtml := none }
      store := store
      wrote := false }

/-- The data-model invariants of the spec: all stored ids are pairwise
distinct and no stored task has an empty text. -/
def StoreInv (l : TaskList) : Prop :=
  (l.tasks.map Task.id).Nodup ∧ ∀ t ∈ l.tasks, t.text ≠ ""

instance (l : TaskList) : Decidable (StoreInv l) := by
  unfold StoreInv; infer_instance

/-! ### Helper lemmas about the `mark_done` loop -/

theorem matchesId_set_done (a : Option String) (t : Task) (d : Bool) :
    matchesId a { t with done := d } = matchesId a t := by
  cases a <;> rfl

theorem markFirst_of_no_match (a : Option String) (d : Bool) :
    ∀ ts : List Task, (∀ t ∈ ts, matchesId a t = false) →
      markFirst a d ts = (ts, false)
  | [], _ => rfl
  | t :: ts, h => by
    have ht : matchesId a t = false := h t (List.mem_cons_self t ts)
    have ih :=
      markFirst_of_no_match a d ts fun u hu => h u (List.mem_cons_of_mem t hu)
    simp [markFirst, ht, ih]

theorem markFirst_snd_true (a : Option String) (d : Bool) :
    ∀ ts : List Task, (∃ t ∈ ts, matchesId a t = true) →
      (markFirst a d ts).2 = true
  | [], h => by simp at h
  | t :: ts, h => by
    by_cases ht : matchesId a t
    · simp [markFirst, ht]
    · obtain ⟨u, hu, hmu⟩ := h
      rcases List.mem_cons.mp hu with rfl | hu'
      · exact absurd hmu (by simpa using ht)
      · have ih := markFirst_snd_true a d ts ⟨u, hu', hmu⟩
        simp [markFirst, ht, ih]

theorem markFirst_map_id (a : Option String) (d : Bool) :
    ∀ ts : List Task, ((markFirst a d ts).1).map Task.id = ts.map Task.id
  | [] => rfl
  | t :: ts => by
    by_cases ht : matchesId a t
    · simp [markFirst, ht]
    · simp [markFirst, ht, markFirst_map_id a d ts]

theorem markFirst_map_text (a : Option String) (d : Bool) :
    ∀ ts : List Task, ((markFirst a d ts).1).map Task.text = ts.map Task.text
  | [] => rfl
  | t :: ts => by
    by_cases ht : matchesId a t
    · simp [markFirst, ht]
    · simp [markFirst, ht, markFirst_map_text a d ts]

theorem markFirst_markFirst (a : Option String) (d1 d2 : Bool) :
    ∀ ts : List Task,
      markFirst a d2 (markFirst a d1 ts).1 = markFirst a d2 ts
  | [] => rfl
  | t :: ts => by
    by_cases ht : matchesId a t
    · have ht' : matchesId a { t with done := d1 } = true := by
        rw [matchesId_set_done]; exact ht
      simp [markFirst, ht, ht']
    · have ht' : matchesId a t = false := by simpa using ht
      simp [markFirst, ht', markFirst_markFirst a d1 d2 ts]

theorem find?_markFirst (id : String) (d : Bool) :
    ∀ (ts : List Task) (t : Task),
      ts.find? (fun u => u.id == id) = some t →
      ((markFirst (some id) d ts).1).find? (fun u => u.id == id) =
        some { t with done := d }
  | [], t, h => by simp at h
  | u :: ts, t, h => by
    by_cases hu : (u.id == id) = true
    · simp only [List.find?, hu] at h
      obtain rfl : u = t := by injection h
      have hm : matchesId (some id) u = true := hu
      simp [markFirst, hm, List.find?, hu]
    · have hu' : (u.id == id) = false := by simpa using hu
      simp only [List.find?, hu'] at h
      have ih := find?_markFirst id d ts t h
      have hm : matchesId (some id) u = false := by simpa [matchesId] using hu
      simp only [markFirst, hm, if_false, Bool.false_eq_true, List.find?, hu']
      exact ih

theorem markFirst_fst_of_snd_false (a : Option String) (d : Bool) :
    ∀ ts : List Task, (markFirst a d ts).2 = false → (markFirst a d ts).1 = ts
  | [], _ => rfl
  | t :: ts, h => by
    by_cases ht : matchesId a t
    · simp [markFirst, ht] at h
    · have ht' : matchesId a t = false := by simpa using ht
      simp only [markFirst, ht', if_false, Bool.false_eq_true] at h ⊢
      rw [markFirst_fst_of_snd_false a d ts h]

theorem firstMatchIdx_eq_none_of_snd_false (a : Option String) (d : Bool) :
    ∀ ts : List Task, (markFirst a d ts).2 = false → firstMatchIdx a ts = none
  | [], _ => rfl
  | t :: ts, h => by
    by_cases ht : matchesId a t
    · simp [markFirst, ht] at h
    · have ht' : matchesId a t = false := by simpa using ht
      simp only [markFirst, ht', if_false, Bool.false_eq_true] at h
      simp [firstMatchIdx, ht', firstMatchIdx_eq_none_of_snd_false a d ts h]

theorem getElem?_markFirst (a : Option String) (d : Bool) :
    ∀ (ts : List Task) (i : Nat),
      ((markFirst a d ts).1)[i]? =
        (ts[i]?).map fun t =>
          if firstMatchIdx a ts = some i then { t with done := d } else t
  | [], i => by simp [markFirst]
  | t :: ts, i => by
    by_cases ht : matchesId a t
    · cases i with
      | zero => simp [markFirst, ht, firstMatchIdx]
      | succ n => simp [markFirst, ht, firstMatchIdx]
    · have ht' : matchesId a t = false := by simpa using ht
      cases i with
      | zero =>
        cases hfm : firstMatchIdx a ts with
        | none => simp [markFirst, ht', firstMatchIdx, hfm]
        | some k => simp [markFirst, ht', firstMatchIdx, hfm]
      | succ n =>
        have ih := getElem?_markFirst a d ts n
        cases hfm : firstMatchIdx a ts with
        | none => simp [markFirst, ht', firstMatchIdx, hfm, ih]
        | some k =>
          by_cases hk : k = n
          · subst hk
            simp [markFirst, ht', firstMatchIdx, hfm, ih]
          · simp [markFirst, ht', firstMatchIdx, hfm, ih, hk]

/-! ### Claim theorems -/

/-- C1: for every text that is non-empty after trimming, an `add_task`
call succeeds (no error flag), increases the task list length by exactly
one, appends the new task at the end with `done = false`, the trimmed
text, the freshly generated id and the creation timestamp, leaves every
previously stored task unchanged in value and order, and persists the
resulting list (the store after the call is the appended list and a
write occurred). -/
theorem add_task_appends_one (env : Env) (version : String) (l : TaskList)
    (text : String) (due : Option String) (h : pyStrip text ≠ "") :
    ((handleCallTool env version l (.addTask (some text) due)).result.isError
        = false) ∧
    ((handleCallTool env version l (.addTask (some text) due)).store.tasks.length
        = l.tasks.length + 1) ∧
    ((handleCallTool env version l (.addTask (some text) due)).store.tasks
        = l.tasks ++
            [{ id := env.freshId, text := pyStrip text, done := false,
               created_at := env.now ++ "Z", due_date := due }]) ∧
    ((handleCallTool env version l (.addTask (some text) due)).wrote = true) ∧
    ((handleCallTool env version l (.addTask (some text) due)).result.structuredContent
        = some (handleCallTool env version l (.addTask (some text) due)).store) := by
  simp [handleCallTool, h]

/-- Witness for C1 at a concrete input. -/
theorem add_task_appends_one_witness :
    ((handleCallTool ⟨"id-1", "2024-01-02T03:04:05"⟩ "1" ⟨[]⟩
        (.addTask (some " Buy milk ") none)).result.isError = false) ∧
    ((handleCallTool ⟨"id-1", "2024-01-02T03:04:05"⟩ "1" ⟨[]⟩
        (.addTask (some " Buy milk ") none)).store.tasks.length
        = (TaskList.mk []).tasks.length + 1) ∧
    ((handleCallTool ⟨"id-1", "2024-01-02T03:04:05"⟩ "1" ⟨[]⟩
        (.addTask (some " Buy milk ") none)).store.tasks
        = (TaskList.mk []).tasks ++
            [{ id := (Env.mk "id-1" "2024-01-02T03:04:05").freshId,
               text := pyStrip " Buy milk ", done := false,
               created_at := (Env.mk "id-1" "2024-01-02T03:04:05").now ++ "Z",
               due_date := none }]) ∧
    ((handleCallTool ⟨"id-1", "2024-01-02T03:04:05"⟩ "1" ⟨[]⟩
        (.addTask (some " Buy milk ") none)).wrote = true) ∧
    ((handleCallTool ⟨"id-1", "2024-01-02T03:04:05"⟩ "1" ⟨[]⟩
        (.addTask (some " Buy milk ") none)).result.structuredContent
        = some (handleCallTool ⟨"id-1", "2024-01-02T03:04:05"⟩ "1" ⟨[]⟩
            (.addTask (some " Buy milk ") none)).store) :=
  add_task_appends_one ⟨"id-1", "2024-01-02T03:04:05"⟩ "1" ⟨[]⟩
    " Buy milk " none (by decide)

/-- C2: for every text argument that is empty or whitespace-only after
trimming (a missing argument defaults to the empty string), `add_task`
returns an error-flagged response carrying only the text summary — no
structured payload and no widget meta — and the persisted task list is
exactly the one before the call, with no write performed. -/
theorem add_task_blank_no_mutation (env : Env) (version : String)
    (l : TaskList) (argText due : Option String)
    (h : pyStrip (argText.getD "") = "") :
    ((handleCallTool env version l (.addTask argText due)).result.isError
        = true) ∧
    ((handleCallTool env version l (.addTask argText due)).result.structuredContent
        = none) ∧
    ((handleCallTool env version l (.addTask argText due)).result.metaWidgetHtml
        = none) ∧
    ((handleCallTool env version l (.addTask argText due)).store = l) ∧
    ((handleCallTool env version l (.addTask argText due)).wrote = false) := by
  simp [handleCallTool, h]

/-- Witness for C2 at a concrete input (whitespace-only text on a
non-empty store). -/
theorem add_task_blank_no_mutation_witness :
    ((handleCallTool ⟨"id-9", "2024-05-06T07:08:09"⟩ "1"
        ⟨[⟨"a", "keep me", false, "T0", none⟩]⟩
        (.addTask (some "   ") none)).result.isError = true) ∧
    ((handleCallTool ⟨"id-9", "2024-05-06T07:08:09"⟩ "1"
        ⟨[⟨"a", "keep me", false, "T0", none⟩]⟩
        (.addTask (some "   ") none)).result.structuredContent = none) ∧
    ((handleCallTool ⟨"id-9", "2024-05-06T07:08:09"⟩ "1"
        ⟨[⟨"a", "keep me", false, "T0", none⟩]⟩
        (.addTask (some "   ") none)).result.metaWidgetHtml = none) ∧
    ((handleCallTool ⟨"id-9", "2024-05-06T07:08:09"⟩ "1"
        ⟨[⟨"a", "keep me", false, "T0", none⟩]⟩
        (.addTask (some "   ") none)).store
        = ⟨[⟨"a", "keep me", false, "T0", none⟩]⟩) ∧
    ((handleCallTool ⟨"id-9", "2024-05-06T07:08:09"⟩ "1"
        ⟨[⟨"a", "keep me", false, "T0", none⟩]⟩
        (.addTask (some "   ") none)).wrote = false) :=
  add_task_blank_no_mutation ⟨"id-9", "2024-05-06T07:08:09"⟩ "1"
    ⟨[⟨"a", "keep me", false, "T0", none⟩]⟩ (some "   ") none (by decide)

/-- C3: for every `task_id` argument matching no stored task (including
a missing argument, which compares unequal to every id), `mark_done`
returns an error-flagged response carrying only the text summary — no
structured payload and no widget meta — and the persisted task list is
exactly the one before the call, with no write performed. -/
theorem mark_done_not_found_no_mutation (env : Env) (version : String)
    (l : TaskList) (argId : Option String) (argDone : Option Bool)
    (h : ∀ t ∈ l.tasks, matchesId argId t = false) :
    ((handleCallTool env version l (.markDone argId argDone)).result.isError
        = true) ∧
    ((handleCallTool env version l (.markDone argId argDone)).result.structuredContent
        = none) ∧
    ((handleCallTool env version l (.markDone argId argDone)).result.metaWidgetHtml
        = none) ∧
    ((handleCallTool env version l (.markDone argId argDone)).store = l) ∧
    ((handleCallTool env version l (.markDone argId argDone)).wrote = false) := by
  have hm := markFirst_of_no_match argId (argDone.getD true) l.tasks h
  simp [handleCallTool, hm]

/-- Witness for C3 at a concrete input (unknown id on a non-empty
store). -/
theorem mark_done_not_found_no_mutation_witness :
    ((handleCallTool ⟨"id-7", "2024-03-04T05:06:07"⟩ "1"
        ⟨[⟨"a", "keep me", false, "T0", none⟩]⟩
        (.markDone (some "nonexistent") none)).result.isError = true) ∧
    ((handleCallTool ⟨"id-7", "2024-03-04T05:06:07"⟩ "1"
        ⟨[⟨"a", "keep me", false, "T0", none⟩]⟩
        (.markDone (some "nonexistent") none)).result.structuredContent
        = none) ∧
    ((handleCallTool ⟨"id-7", "2024-03-04T05:06:07"⟩ "1"
        ⟨[⟨"a", "keep me", false, "T0", none⟩]⟩
        (.markDone (some "nonexistent") none)).result.metaWidgetHtml = none) ∧
    ((handleCallTool ⟨"id-7", "2024-03-04T05:06:07"⟩ "1"
        ⟨[⟨"a", "keep me", false, "T0", none⟩]⟩
        (.markDone (some "nonexistent") none)).store
        = ⟨[⟨"a", "keep me", false, "T0", none⟩]⟩) ∧
    ((handleCallTool ⟨"id-7", "2024-03-04T05:06:07"⟩ "1"
        ⟨[⟨"a", "keep me", false, "T0", none⟩]⟩
        (.markDone (some "nonexistent") none)).wrote = false) :=
  mark_done_not_found_no_mutation ⟨"id-7", "2024-03-04T05:06:07"⟩ "1"
    ⟨[⟨"a", "keep me", false, "T0", none⟩]⟩ (some "nonexistent") none
    (by decide)

/-- C6: `get_tasks` never writes to the persisted store — after the
call the store is exactly what it was and no write was performed — and a
second `get_tasks` call with no intervening write (even under a
different runtime environment) returns an identical response, structured
payload included. -/
theorem get_tasks_readonly (e1 e2 : Env) (version : String) (l : TaskList) :
    ((handleCallTool e1 version l .getTasks).wrote = false) ∧
    ((handleCallTool e1 version l .getTasks).store = l) ∧
    ((handleCallTool e2 version (handleCallTool e1 version l .getTasks).store
        .getTasks).result
      = (handleCallTool e1 version l .getTasks).result) :=
  ⟨rfl, rfl, rfl⟩

/-- C4: for every id of a task existing in the stored list,
`mark_done(id, done=true)` followed by `mark_done(id, done=false)` both
succeed (both persist), and afterwards the task found under that id has
`done = false` with its id, text, creation timestamp and due date equal
to their values before the two calls. -/
theorem mark_done_roundtrip (e1 e2 : Env) (version : String) (l : TaskList)
    (id : String) (h : ∃ t ∈ l.tasks, t.id = id) :
    ((handleCallTool e1 version l (.markDone (some id) (some true))).wrote
        = true) ∧
    ((handleCallTool e2 version
        (handleCallTool e1 version l (.markDone (some id) (some true))).store
        (.markDone (some id) (some false))).wrote = true) ∧
    ((handleCallTool e2 version
        (handleCallTool e1 version l (.markDone (some id) (some true))).store
        (.markDone (some id) (some false))).store.tasks.find?
          (fun u => u.id == id)
      = (l.tasks.find? fun u => u.id == id).map
          fun t => { id := t.id, text := t.text, done := false,
                     created_at := t.created_at, due_date := t.due_date }) := by
  have hmem : ∃ t ∈ l.tasks, matchesId (some id) t = true := by
    obtain ⟨t, ht, hid⟩ := h
    exact ⟨t, ht, by simp [matchesId, hid]⟩
  have h1 : (markFirst (some id) true l.tasks).2 = true :=
    markFirst_snd_true _ _ _ hmem
  have hs1 : (handleCallTool e1 version l (.markDone (some id) (some true))).store
      = ⟨(markFirst (some id) true l.tasks).1⟩ := by
    simp [handleCallTool, h1]
  have hmm := markFirst_markFirst (some id) true false l.tasks
  have h2 : (markFirst (some id) false
      (markFirst (some id) true l.tasks).1).2 = true := by
    rw [hmm]
    exact markFirst_snd_true _ _ _ hmem
  refine ⟨by simp [handleCallTool, h1], ?_, ?_⟩
  · rw [hs1]
    simp [handleCallTool, h2]
  · rw [hs1]
    have hstore2 : (handleCallTool e2 version
        (TaskList.mk (markFirst (some id) true l.tasks).1)
        (.markDone (some id) (some false))).store
        = ⟨(markFirst (some id) false l.tasks).1⟩ := by
      simp only [handleCallTool, Option.getD_some, h2, if_true]
      rw [hmm]
    rw [hstore2]
    have hsome : (l.tasks.find? fun u => u.id == id).isSome := by
      refine List.find?_isSome.mpr ?_
      obtain ⟨t, ht, hid⟩ := h
      exact ⟨t, ht, by simp [hid]⟩
    obtain ⟨t, hft⟩ := Option.isSome_iff_exists.mp hsome
    rw [hft, find?_markFirst id false l.tasks t hft]
    rfl

/-- Witness for C4 at a concrete input (a two-task store, marking the
second task). -/
theorem mark_done_roundtrip_witness :
    ((handleCallTool ⟨"e1", "T1"⟩ "1"
        ⟨[⟨"a", "first", false, "T0", none⟩,
          ⟨"b", "second", true, "T0", some "2024-12-31"⟩]⟩
        (.markDone (some "b") (some true))).wrote = true) ∧
    ((handleCallTool ⟨"e2", "T2"⟩ "1"
        (handleCallTool ⟨"e1", "T1"⟩ "1"
          ⟨[⟨"a", "first", false, "T0", none⟩,
            ⟨"b", "second", true, "T0", some "2024-12-31"⟩]⟩
          (.markDone (some "b") (some true))).store
        (.markDone (some "b") (some false))).wrote = true) ∧
    ((handleCallTool ⟨"e2", "T2"⟩ "1"
        (handleCallTool ⟨"e1", "T1"⟩ "1"
          ⟨[⟨"a", "first", false, "T0", none⟩,
            ⟨"b", "second", true, "T0", some "2024-12-31"⟩]⟩
          (.markDone (some "b") (some true))).store
        (.markDone (some "b") (some false))).store.tasks.find?
          (fun u => u.id == "b")
      = ((TaskList.mk
            [⟨"a", "first", false, "T0", none⟩,
             ⟨"b", "second", true, "T0", some "2024-12-31"⟩]).tasks.find?
              fun u => u.id == "b").map
          fun t => { id := t.id, text := t.text, done := false,
                     created_at := t.created_at, due_date := t.due_date }) :=
  mark_done_roundtrip ⟨"e1", "T1"⟩ ⟨"e2", "T2"⟩ "1"
    ⟨[⟨"a", "first", false, "T0", none⟩,
      ⟨"b", "second", true, "T0", some "2024-12-31"⟩]⟩ "b" (by decide)

/-- C5: the data-model invariants — pairwise-distinct task ids and no
empty stored text — are preserved by every operation the dispatcher
serves, under the freshness assumption on the generated uuid (the code
relies on `uuid.uuid4()` never colliding with a stored id). -/
theorem operations_preserve_invariants (env : Env) (version : String)
    (l : TaskList) (req : Request) (hInv : StoreInv l)
    (hfresh : env.freshId ∉ l.tasks.map Task.id) :
    StoreInv (handleCallTool env version l req).store := by
  obtain ⟨hnd, htx⟩ := hInv
  cases req with
  | getTasks => exact ⟨hnd, htx⟩
  | unknown name => exact ⟨hnd, htx⟩
  | addTask argText argDue =>
    by_cases hb : pyStrip (argText.getD "") = ""
    · simpa [handleCallTool, hb] using (⟨hnd, htx⟩ : StoreInv l)
    · have hstore : (handleCallTool env version l (.addTask argText argDue)).store
          = ⟨l.tasks ++
              [{ id := env.freshId, text := pyStrip (argText.getD ""),
                 done := false, created_at := env.now ++ "Z",
                 due_date := argDue }]⟩ := by
        simp [handleCallTool, hb]
      rw [hstore]
      constructor
      · show (List.map Task.id (l.tasks ++ [_])).Nodup
        rw [List.map_append]
        rw [List.nodup_append]
        refine ⟨hnd, List.nodup_singleton _, ?_⟩
        intro x hx hx'
        simp only [List.map_cons, List.map_nil, List.mem_singleton] at hx'
        subst hx'
        exact hfresh hx
      · intro t ht
        rcases List.mem_append.mp ht with hl | hr
        · exact htx t hl
        · simp only [List.mem_singleton] at hr
          subst hr
          simpa using hb
  | markDone argId argDone =>
    cases hr2 : (markFirst argId (argDone.getD true) l.tasks).2 with
    | false => simpa [handleCallTool, hr2] using (⟨hnd, htx⟩ : StoreInv l)
    | true =>
      have hstore : (handleCallTool env version l (.markDone argId argDone)).store
          = ⟨(markFirst argId (argDone.getD true) l.tasks).1⟩ := by
        simp [handleCallTool, hr2]
      rw [hstore]
      constructor
      · show (List.map Task.id (markFirst argId (argDone.getD true) l.tasks).1).Nodup
        rw [markFirst_map_id]
        exact hnd
      · intro t ht
        have hmem : t.text ∈
            ((markFirst argId (argDone.getD true) l.tasks).1).map Task.text :=
          List.mem_map_of_mem _ ht
        rw [markFirst_map_text] at hmem
        obtain ⟨u, hu, hut⟩ := List.mem_map.mp hmem
        rw [← hut]
        exact htx u hu

/-- Witness for C5 at a concrete input (adding a task to a one-task
store with a fresh uuid). -/
theorem operations_preserve_invariants_witness :
    StoreInv (handleCallTool ⟨"fresh-id", "2024-01-01T00:00:00"⟩ "1"
      ⟨[⟨"a", "first", false, "T0", none⟩]⟩
      (.addTask (some "second") none)).store :=
  operations_preserve_invariants ⟨"fresh-id", "2024-01-01T00:00:00"⟩ "1"
    ⟨[⟨"a", "first", false, "T0", none⟩]⟩ (.addTask (some "second") none)
    (by constructor <;> decide) (by decide)

/-- C10: a successful `add_task` stores the supplied text with leading
and trailing whitespace removed (the appended task carries the trimmed
text), and a `mark_done` call changes at most the `done` field of the
first task whose id matches, leaving every other task and every other
field exactly as it was. -/
theorem add_strips_and_mark_done_frame (env : Env) (version : String)
    (l : TaskList) (text : String) (due : Option String)
    (argId : Option String) (argDone : Option Bool)
    (h : pyStrip text ≠ "") :
    ((handleCallTool env version l (.addTask (some text) due)).store.tasks.getLast?
        = some { id := env.freshId, text := pyStrip text, done := false,
                 created_at := env.now ++ "Z", due_date := due }) ∧
    ∀ i : Nat,
      (handleCallTool env version l (.markDone argId argDone)).store.tasks[i]?
        = (l.tasks[i]?).map fun t =>
            if firstMatchIdx argId l.tasks = some i
            then { t with done := argDone.getD true } else t := by
  constructor
  · simp [handleCallTool, h, List.getLast?_concat]
  · intro i
    cases hr2 : (markFirst argId (argDone.getD true) l.tasks).2 with
    | true =>
      have hstore : (handleCallTool env version l (.markDone argId argDone)).store
          = ⟨(markFirst argId (argDone.getD true) l.tasks).1⟩ := by
        simp [handleCallTool, hr2]
      rw [hstore]
      exact getElem?_markFirst argId (argDone.getD true) l.tasks i
    | false =>
      have hstore : (handleCallTool env version l (.markDone argId argDone)).store
          = l := by
        simp [handleCallTool, hr2]
      rw [hstore]
      have hnone :=
        firstMatchIdx_eq_none_of_snd_false argId (argDone.getD true) l.tasks hr2
      simp [hnone, Option.map_id']

/-- Witness for C10 at a concrete input (text with surrounding
whitespace; `mark_done` on the first of two tasks, checked at index 0). -/
theorem add_strips_and_mark_done_frame_witness :
    ((handleCallTool ⟨"w-id", "T9"⟩ "1"
        ⟨[⟨"a", "first", false, "T0", none⟩,
          ⟨"b", "second", false, "T0", none⟩]⟩
        (.addTask (some " pay rent ") none)).store.tasks.getLast?
        = some { id := (Env.mk "w-id" "T9").freshId,
                 text := pyStrip " pay rent ", done := false,
                 created_at := (Env.mk "w-id" "T9").now ++ "Z",
                 due_date := none }) ∧
    ((handleCallTool ⟨"w-id", "T9"⟩ "1"
        ⟨[⟨"a", "first", false, "T0", none⟩,
          ⟨"b", "second", false, "T0", none⟩]⟩
        (.markDone (some "a") (some true))).store.tasks[0]?
        = ((TaskList.mk
              [⟨"a", "first", false, "T0", none⟩,
               ⟨"b", "second", false, "T0", none⟩]).tasks[0]?).map
            fun t =>
              if firstMatchIdx (some "a")
                  (TaskList.mk
                    [⟨"a", "first", false, "T0", none⟩,
                     ⟨"b", "second", false, "T0", none⟩]).tasks = some 0
              then { t with done := (Option.some true).getD true } else t) :=
  ⟨(add_strips_and_mark_done_frame ⟨"w-id", "T9"⟩ "1"
      ⟨[⟨"a", "first", false, "T0", none⟩,
        ⟨"b", "second", false, "T0", none⟩]⟩
      " pay rent " none (some "a") (some true) (by decide)).1,
   (add_strips_and_mark_done_frame ⟨"w-id", "T9"⟩ "1"
      ⟨[⟨"a", "first", false, "T0", none⟩,
        ⟨"b", "second", false, "T0", none⟩]⟩
      " pay rent " none (some "a") (some true) (by decide)).2 0⟩

/-- C7 counterexample: the claim says a persisted document whose
`tasks` field is missing is rejected by `load()`; the code instead
accepts it — `raw.get("tasks", [])` defaults the missing key to the
empty list, so reading the document `\x7b\x7d` succeeds with an empty
task list rather than failing. -/
theorem read_store_accepts_missing_tasks_field :
    readStore (some (Json.obj [])) = .ok ⟨[]⟩ := rfl

/-- C7 as amended: `load()` fails when the medium is unreadable or the
content is not valid JSON, and when a task record lacks a required
field; but a top-level document whose `tasks` field is missing is
accepted as an empty task list (not rejected); on first run the
initialized document reads back as the empty task list. -/
theorem read_store_amended (fields r : List (String × Json))
    (rest : List Json)
    (hmiss : lookupField "tasks" fields = none)
    (hid : lookupField "id" r = none) :
    (∃ e, readStore none = .error e) ∧
    (readStore (some (.obj fields)) = .ok ⟨[]⟩) ∧
    (∃ e, readStore (some (.obj [("tasks", .arr (Json.obj r :: rest))]))
        = .error e) ∧
    (readStore (some initStoreJson) = .ok ⟨[]⟩) := by
  refine ⟨⟨_, rfl⟩, ?_, ?_, rfl⟩
  · have h0 : readStore (some (.obj fields))
        = Except.bind (pyIter ((lookupField "tasks" fields).getD (.arr [])))
            (fun items => Except.bind (tasksOfJsonList items)
              (fun ts => Except.ok ⟨ts⟩)) := rfl
    rw [h0, hmiss]
    rfl
  · have htask : ∃ e, taskOfJson (Json.obj r) = .error e := by
      simp only [taskOfJson]
      rw [hid]
      exact ⟨_, rfl⟩
    obtain ⟨e, he⟩ := htask
    refine ⟨e, ?_⟩
    have h0 : readStore (some (.obj [("tasks", .arr (Json.obj r :: rest))]))
        = Except.bind (tasksOfJsonList (Json.obj r :: rest))
            (fun ts => Except.ok ⟨ts⟩) := rfl
    have h1 : tasksOfJsonList (Json.obj r :: rest)
        = Except.bind (taskOfJson (Json.obj r))
            (fun t => Except.bind (tasksOfJsonList rest)
              (fun ts => Except.ok (t :: ts))) := rfl
    rw [h0, h1, he]
    rfl

/-- Witness for the amended C7 at concrete inputs: a document carrying
only an unrelated key, and a record missing its required `id`. -/
theorem read_store_amended_witness :
    (∃ e, readStore none = .error e) ∧
    (readStore (some (.obj [("other", Json.null)])) = .ok ⟨[]⟩) ∧
    (∃ e, readStore (some (.obj [("tasks",
        .arr (Json.obj [("text", Json.str "x")] :: ([] : List Json)))]))
        = .error e) ∧
    (readStore (some initStoreJson) = .ok ⟨[]⟩) :=
  read_store_amended [("other", Json.null)] [("text", Json.str "x")] []
    rfl rfl

set_option maxRecDepth 200000 in
/-- C8 (evaluating the code at a failing input): the renderer never
embeds the task JSON at all. `str.format` rewrites the template
placeholder `\x7b\x7bTASKS_JSON\x7d\x7d` to `\x7bTASKS_JSON\x7d` before
`replace` searches for the doubled-brace spelling, so the replacement
finds nothing: the HTML rendered for a task whose text contains `</`
is byte-identical to the HTML rendered for the empty task list, the
literal placeholder remains in the data script tag, and no fragment of
the task data (not even the escaped text) appears in the output. -/
theorem render_never_embeds_task_json :
    (renderWidgetHtml ⟨"uuid-1", "2024-01-01T00:00:00"⟩ "1"
        ⟨[⟨"t1", "</script><script>alert(1)</script>", false,
           "2024-01-01T00:00:00", none⟩]⟩
      = renderWidgetHtml ⟨"uuid-2", "2024-02-02T00:00:00"⟩ "1" ⟨[]⟩) ∧
    (strContains
        (renderWidgetHtml ⟨"uuid-1", "2024-01-01T00:00:00"⟩ "1"
          ⟨[⟨"t1", "</script><script>alert(1)</script>", false,
             "2024-01-01T00:00:00", none⟩]⟩)
        "\x7bTASKS_JSON\x7d" = true) ∧
    (strContains
        (renderWidgetHtml ⟨"uuid-1", "2024-01-01T00:00:00"⟩ "1"
          ⟨[⟨"t1", "</script><script>alert(1)</script>", false,
             "2024-01-01T00:00:00", none⟩]⟩)
        "alert" = false) := by
  refine ⟨by decide, by decide, by decide⟩

/-- C9: the widget renderer is a deterministic function of the task
list and the asset version alone: whatever the runtime environment (the
random source and the clock readings) supplies, the rendered HTML is
byte-for-byte identical for the same inputs. -/
theorem render_deterministic (e1 e2 : Env) (version : String)
    (l : TaskList) :
    renderWidgetHtml e1 version l = renderWidgetHtml e2 version l := rfl

end TodoApp
